import Mathlib

/-!
Verification of the CSV-to-PDF notebook generator (src/main.py).

The Python program is embedded shallowly:
* `pyInt` models the behaviour of the builtin `int(str)` conversion on
  ASCII strings (optional surrounding whitespace, optional sign, decimal
  digits; underscore separators and non-ASCII digits are not modelled).
* `load_topics_from_csv` models the loader built on `csv.DictReader`
  for unquoted comma-separated content (quoting and duplicate header
  names are not modelled; a missing filesystem entry is the `none` case
  of the `file` argument).
* `PdfState` with `set_topic`, `header`, `footerLine`, `add_page` and
  `outputDoc` models the `NotebookPDF` subclass together with the page
  lifecycle of the authoring engine.  The engine itself is not part of
  the repository; its lifecycle is modelled from the spec: `add_page`
  first runs the footer callback of the still-open page, then opens a
  new page and runs the header callback, and serialisation closes the
  last open page by running its footer callback.
* `generate_notebook_pdf` models the top-level generator; its `writeOk`
  argument models whether the final `pdf.output` call succeeds, and an
  `Except.ok` result is the document written to the output file (the
  spec describes the external writer as all-or-nothing).
-/

namespace Notebook

/-- A Python dictionary value for a CSV cell: either `None` or a string. -/
inductive Cell where
  | null
  | str (s : String)
deriving DecidableEq, Repr

/-- One row as produced by `csv.DictReader` (restricted to the two keys the
program reads).  A field is `none` when the key is absent from the dict and
`some Cell.null` when the key maps to Python `None`. -/
structure TopicData where
  topic : Option Cell
  pages : Option Cell
deriving DecidableEq, Repr

/-- Whitespace characters stripped by Python `int(str)`. -/
def pyWhitespace (c : Char) : Bool :=
  c == ' ' || c == '\t' || c == '\n' || c == '\r' || c == '\x0b' || c == '\x0c'

/-- Decimal value of a digit list (most significant first). -/
def digitsToNat (cs : List Char) : Nat :=
  cs.foldl (fun a c => a * 10 + (c.toNat - 48)) 0

/-- Model of the Python builtin `int(s)` on a string: strips surrounding
whitespace, accepts an optional sign followed by at least one decimal digit,
and returns `none` where Python raises `ValueError`. -/
def pyInt (s : String) : Option Int :=
  let cs := ((s.toList.dropWhile pyWhitespace).reverse.dropWhile pyWhitespace).reverse
  match cs with
  | [] => none
  | c :: rest =>
    if c == '-' then
      if rest.isEmpty then none
      else if rest.all Char.isDigit then some (-(digitsToNat rest : Int)) else none
    else if c == '+' then
      if rest.isEmpty then none
      else if rest.all Char.isDigit then some (digitsToNat rest) else none
    else
      if cs.all Char.isDigit then some (digitsToNat cs) else none

/-- Split a character list at every occurrence of `sep` (like
`str.split(sep)` on the exploded string). -/
def splitOnChar (sep : Char) : List Char → List (List Char)
  | [] => [[]]
  | c :: rest =>
    match splitOnChar sep rest with
    | [] => [[c]]
    | h :: t => if c == sep then [] :: h :: t else (c :: h) :: t

/-- Lookup of one key in a `csv.DictReader` row: `fields` is the header
row, `cells` the data row; a key named by the header but missing from a
short data row maps to Python `None` (the `restval` behaviour). -/
def dictReaderGet (fields : List String) (cells : List String) (key : String) : Option Cell :=
  match fields.findIdx? (· == key) with
  | none => none
  | some i =>
    match cells.get? i with
    | some v => some (Cell.str v)
    | none => some Cell.null

/-- Load-time failures of `load_topics_from_csv`: `FileNotFoundError` when
the path does not resolve, `csv.Error` when the csv module itself fails
(never produced by this model of well-formed text content). -/
inductive LoadError where
  | resourceNotFound
  | csvError
deriving DecidableEq, Repr

/-- Model of `load_topics_from_csv`: reads the whole resource through
`csv.DictReader` and returns the rows as dictionaries, with no validation
of field presence or of the `Pages` value.  The `file` argument is the
content of the resource, or `none` when the path does not resolve. -/
def load_topics_from_csv (file : Option String) : Except LoadError (List TopicData) :=
  match file with
  | none => Except.error LoadError.resourceNotFound
  | some content =>
    let lines := (splitOnChar '\n' content.toList).filter (fun l => !l.isEmpty)
    match lines with
    | [] => Except.ok []
    | headerLine :: dataLines =>
      let fields := (splitOnChar ',' headerLine).map String.mk
      Except.ok (dataLines.map (fun line =>
        let cells := (splitOnChar ',' line).map String.mk
        ⟨dictReaderGet fields cells "Topic", dictReaderGet fields cells "Pages"⟩))

/-- ASCII case folding of one character, as `str.lower` acts on it. -/
def pyLowerChar (c : Char) : Char :=
  if 65 ≤ c.toNat ∧ c.toNat ≤ 90 then Char.ofNat (c.toNat + 32) else c

/-- Model of Python `str.lower()` on ASCII strings (non-ASCII case
mappings are not modelled). -/
def pyLower (s : String) : String := String.mk (s.toList.map pyLowerChar)

/-- One rendered page of the document: the text drawn by the header
callback and the text drawn by the footer callback. -/
structure PdfPage where
  headerText : String
  footerText : String
deriving DecidableEq, Repr

/-- State of a `NotebookPDF` instance: the two topic fields from
`__init__`, the already finalised pages, and the header text of the page
that is open but not yet finalised (`none` before the first `add_page`). -/
structure PdfState where
  current_topic : String
  page_topic : String
  closedPages : List PdfPage
  openHeader : Option String
deriving DecidableEq, Repr

/-- `NotebookPDF.__init__`: both topic fields start empty, no pages. -/
def initPdf : PdfState := ⟨"", "", [], none⟩

/-- `NotebookPDF.set_topic`. -/
def set_topic (s : PdfState) (t : String) : PdfState :=
  { s with current_topic := t }

/-- `NotebookPDF.header`: commits the current topic into `_page_topic`
and returns the committed text that the header cell draws. -/
def header (s : PdfState) : PdfState × String :=
  let s1 := { s with page_topic := s.current_topic }
  (s1, s1.page_topic)

/-- `NotebookPDF.footer`: the text the footer cell draws is the committed
`_page_topic`, lower-cased.  It never reads `_current_topic`. -/
def footerLine (s : PdfState) : String := pyLower s.page_topic

/-- Finalise the open page, if any: the engine runs the footer callback
on the current state and appends the finished page to the document. -/
def closeOpenPage (s : PdfState) : PdfState :=
  match s.openHeader with
  | none => s
  | some h => { s with openHeader := none,
                       closedPages := s.closedPages ++ [⟨h, footerLine s⟩] }

/-- Modelled from the spec: the authoring engine `FPDF.add_page` is not in
the repository; per the stated engine contract it first finalises the
still-open page (running its footer callback), then opens a new page and
synchronously runs the header callback. -/
def add_page (s : PdfState) : PdfState :=
  let s1 := closeOpenPage s
  let hp := header s1
  { hp.1 with openHeader := some hp.2 }

/-- Modelled from the spec: `FPDF.output` finalises the last open page
(running its footer callback) and serialises the accumulated document. -/
def outputDoc (s : PdfState) : List PdfPage := (closeOpenPage s).closedPages

/-- `create_pages_for_topic`: `range(page_count)` iterations, each calling
`set_topic` then `add_page`.  A negative Python count gives an empty range;
callers pass `Int.toNat` of the parsed count. -/
def create_pages_for_topic : PdfState → String → Nat → PdfState
  | s, _, 0 => s
  | s, topic, n + 1 => create_pages_for_topic (add_page (set_topic s topic)) topic n

/-- Failures of `generate_notebook_pdf`: `ValueError` for an empty topic
list, `KeyError` for a missing required key (with the 1-based record index
from the message), `ValueError` from `int()` on a non-numeric `Pages`
value, `TypeError` from passing `None` where a string is required, and the
`RuntimeError` wrapper around a failed `pdf.output` call. -/
inductive GenError where
  | emptyInput
  | missingField (key : String) (idx : Nat)
  | valueError (s : String)
  | typeError
  | writeFailure
deriving DecidableEq, Repr

/-- The validation loop of `generate_notebook_pdf`: for each record, in
order, checks that the keys `Topic` then `Pages` are present, reporting
the 1-based index of the first offending record. -/
def checkRequiredKeys : Nat → List TopicData → Option GenError
  | _, [] => none
  | i, t :: rest =>
    if t.topic.isNone then some (GenError.missingField "Topic" (i + 1))
    else if t.pages.isNone then some (GenError.missingField "Pages" (i + 1))
    else checkRequiredKeys (i + 1) rest

/-- One iteration of the generation loop: reads `Topic`, converts `Pages`
with `int()`, and runs `create_pages_for_topic`.  A `None` value for
`Pages` is `int(None)`, a `TypeError`; a `None` value for `Topic` only
fails (inside the header callback, `cell(txt=None)`) when a page is
actually drawn, so a zero count succeeds regardless of the topic value.
The `none` branches for absent keys are unreachable after
`checkRequiredKeys`. -/
def recordPages (s : PdfState) (t : TopicData) : Except GenError PdfState :=
  match t.pages with
  | some (Cell.str ps) =>
    match pyInt ps with
    | some k =>
      if k.toNat = 0 then Except.ok s
      else
        match t.topic with
        | some (Cell.str name) => Except.ok (create_pages_for_topic s name k.toNat)
        | some Cell.null => Except.error GenError.typeError
        | none => Except.error (GenError.missingField "Topic" 0)
    | none => Except.error (GenError.valueError ps)
  | some Cell.null => Except.error GenError.typeError
  | none => Except.error (GenError.missingField "Pages" 0)

/-- The page-generation loop of `generate_notebook_pdf`, threading the
PDF state through the records in input order. -/
def runTopics : PdfState → List TopicData → Except GenError PdfState
  | s, [] => Except.ok s
  | s, t :: rest =>
    match recordPages s t with
    | Except.error e => Except.error e
    | Except.ok s1 => runTopics s1 rest

/-- `generate_notebook_pdf` up to (but not including) the final
`pdf.output` call: the empty check, the required-key check, and the
page-generation loop, returning the fully accumulated PDF state. -/
def generatePages (topics : List TopicData) : Except GenError PdfState :=
  if topics.isEmpty then Except.error GenError.emptyInput
  else
    match checkRequiredKeys 0 topics with
    | some e => Except.error e
    | none => runTopics initPdf topics

/-- `generate_notebook_pdf`: builds the whole document in memory, then
serialises it.  `writeOk` models whether the external `pdf.output` call
succeeds; on success the result is the document written to the output
file, on failure the `RuntimeError` surfaces and no file content is
produced (the spec describes serialisation as all-or-nothing). -/
def generate_notebook_pdf (topics : List TopicData) (writeOk : Bool) :
    Except GenError (List PdfPage) :=
  match generatePages topics with
  | Except.error e => Except.error e
  | Except.ok s => if writeOk then Except.ok (outputDoc s) else Except.error GenError.writeFailure

/-- The name a record carries, when its `Topic` cell is a string. -/
def topicName (t : TopicData) : Option String :=
  match t.topic with
  | some (Cell.str n) => some n
  | _ => none

/-- The parsed page count of a record, when its `Pages` cell is a string
that `int()` accepts. -/
def topicCount (t : TopicData) : Option Int :=
  match t.pages with
  | some (Cell.str p) => pyInt p
  | _ => none

/-- A record with a string name and a `Pages` value `int()` accepts. -/
def ValidTopic (t : TopicData) : Prop :=
  (topicName t).isSome = true ∧ (topicCount t).isSome = true

instance (t : TopicData) : Decidable (ValidTopic t) :=
  decidable_of_iff ((topicName t).isSome = true ∧ (topicCount t).isSome = true) Iff.rfl

/-- Name of a record, defaulting to the empty string. -/
def nameOf (t : TopicData) : String := (topicName t).getD ""

/-- Parsed count of a record, defaulting to `0`. -/
def countOf (t : TopicData) : Int := (topicCount t).getD 0

/-- The block of pages one record contributes to the document. -/
def pageBlock (t : TopicData) : List PdfPage :=
  List.replicate (countOf t).toNat ⟨nameOf t, pyLower (nameOf t)⟩

/-- The document the generator is expected to produce: the per-record
page blocks concatenated in input order. -/
def expectedDoc (topics : List TopicData) : List PdfPage :=
  topics.flatMap pageBlock

/-- A record as a caller would construct it directly: both keys present
with string values. -/
def mkTopic (name pages : String) : TopicData :=
  ⟨some (Cell.str name), some (Cell.str pages)⟩

end Notebook

namespace Notebook

lemma outputDoc_add_page (s : PdfState) (t : String) :
    outputDoc (add_page (set_topic s t)) = outputDoc s ++ [⟨t, pyLower t⟩] := by
  cases s with
  | mk ct pt cp oh =>
    cases oh <;>
      simp [outputDoc, add_page, set_topic, header, closeOpenPage, footerLine]

lemma outputDoc_create_pages (t : String) :
    ∀ (n : Nat) (s : PdfState),
      outputDoc (create_pages_for_topic s t n)
        = outputDoc s ++ List.replicate n ⟨t, pyLower t⟩
  | 0, s => by simp [create_pages_for_topic]
  | n + 1, s => by
    rw [create_pages_for_topic, outputDoc_create_pages t n, outputDoc_add_page]
    simp [List.replicate_succ]

lemma recordPages_valid (s : PdfState) (t : TopicData) (h : ValidTopic t) :
    recordPages s t = Except.ok (create_pages_for_topic s (nameOf t) (countOf t).toNat) := by
  obtain ⟨h1, h2⟩ := h
  rcases t with ⟨tp, pg⟩
  rcases tp with _ | tc
  · simp [topicName] at h1
  · rcases tc with _ | name
    · simp [topicName] at h1
    · rcases pg with _ | pc
      · simp [topicCount] at h2
      · rcases pc with _ | ps
        · simp [topicCount] at h2
        · rcases hps : pyInt ps with _ | k
          · rw [topicCount] at h2; simp [hps] at h2
          · by_cases hz : k.toNat = 0
            · simp [recordPages, hps, hz, nameOf, countOf, topicName, topicCount,
                create_pages_for_topic]
            · simp [recordPages, hps, hz, nameOf, countOf, topicName, topicCount]

lemma runTopics_valid :
    ∀ (ts : List TopicData) (s : PdfState), (∀ t ∈ ts, ValidTopic t) →
      ∃ sf, runTopics s ts = Except.ok sf ∧ outputDoc sf = outputDoc s ++ expectedDoc ts
  | [], s, _ => ⟨s, rfl, by simp [expectedDoc]⟩
  | t :: rest, s, h => by
    have ht := h t (List.mem_cons_self t rest)
    have hrest : ∀ x ∈ rest, ValidTopic x := fun x hx => h x (List.mem_cons_of_mem _ hx)
    obtain ⟨sf, h1, h2⟩ :=
      runTopics_valid rest (create_pages_for_topic s (nameOf t) (countOf t).toNat) hrest
    refine ⟨sf, ?_, ?_⟩
    · simp [runTopics, recordPages_valid s t ht, h1]
    · rw [h2, outputDoc_create_pages]
      simp [expectedDoc, pageBlock]

lemma valid_keys_present (t : TopicData) (h : ValidTopic t) :
    t.topic.isNone = false ∧ t.pages.isNone = false := by
  obtain ⟨h1, h2⟩ := h
  rcases t with ⟨tp, pg⟩
  constructor
  · rcases tp with _ | tc
    · simp [topicName] at h1
    · rfl
  · rcases pg with _ | pc
    · simp [topicCount] at h2
    · rfl

lemma checkRequiredKeys_none :
    ∀ (i : Nat) (ts : List TopicData), (∀ t ∈ ts, ValidTopic t) →
      checkRequiredKeys i ts = none
  | _, [], _ => rfl
  | i, t :: rest, h => by
    obtain ⟨htp, hpg⟩ := valid_keys_present t (h t (List.mem_cons_self t rest))
    simp [checkRequiredKeys, htp, hpg,
      checkRequiredKeys_none (i + 1) rest (fun x hx => h x (List.mem_cons_of_mem _ hx))]

lemma generatePages_valid (topics : List TopicData) (hne : topics ≠ [])
    (hv : ∀ t ∈ topics, ValidTopic t) :
    ∃ sf, generatePages topics = Except.ok sf ∧ outputDoc sf = expectedDoc topics := by
  obtain ⟨sf, h1, h2⟩ := runTopics_valid topics initPdf hv
  have hemp : topics.isEmpty = false := by
    cases topics
    · exact absurd rfl hne
    · rfl
  refine ⟨sf, ?_, ?_⟩
  · simp [generatePages, hemp, checkRequiredKeys_none 0 topics hv, h1]
  · rw [h2]
    simp [initPdf, outputDoc, closeOpenPage]

lemma generate_valid (topics : List TopicData) (hne : topics ≠ [])
    (hv : ∀ t ∈ topics, ValidTopic t) :
    generate_notebook_pdf topics true = Except.ok (expectedDoc topics) := by
  obtain ⟨sf, h1, h2⟩ := generatePages_valid topics hne hv
  simp [generate_notebook_pdf, h1, h2]

end Notebook

namespace Notebook

lemma expectedDoc_length (topics : List TopicData) (hnn : ∀ t ∈ topics, 0 ≤ countOf t) :
    ((expectedDoc topics).length : Int) = (topics.map countOf).sum := by
  induction topics with
  | nil => simp [expectedDoc]
  | cons t rest ih =>
    have ht := hnn t (List.mem_cons_self t rest)
    have hrest : ∀ x ∈ rest, 0 ≤ countOf x := fun x hx => hnn x (List.mem_cons_of_mem _ hx)
    have := ih hrest
    simp only [expectedDoc, List.flatMap_cons, List.length_append, List.map_cons,
      List.sum_cons, pageBlock, List.length_replicate] at *
    push_cast
    rw [Int.toNat_of_nonneg ht]
    linarith

/-- C1: for every page emitted, the header and footer text come from the
same committed-label snapshot taken at header time: the generated document
is exactly the in-order concatenation of per-record blocks in which every
page carries the name of the record it was emitted for as header text and
that same name lower-cased as footer text, and on every page the footer
text equals the header text lower-cased, never the name of an adjacent
record. -/
theorem page_label_snapshot_consistent (topics : List TopicData) (hne : topics ≠ [])
    (hv : ∀ t ∈ topics, ValidTopic t) :
    ∃ doc, generate_notebook_pdf topics true = Except.ok doc ∧
      doc = topics.flatMap pageBlock ∧
      (∀ t ∈ topics, ∀ p ∈ pageBlock t,
        p.headerText = nameOf t ∧ p.footerText = pyLower (nameOf t)) ∧
      (∀ p ∈ doc, p.footerText = pyLower p.headerText) := by
  refine ⟨expectedDoc topics, generate_valid topics hne hv, rfl, ?_, ?_⟩
  · intro t _ p hp
    have hp2 := List.eq_of_mem_replicate hp
    simp [hp2]
  · intro p hp
    obtain ⟨t, _, hpt⟩ := List.mem_flatMap.mp hp
    have hp2 := List.eq_of_mem_replicate hpt
    simp [hp2]

/-- C2: for every non-empty sequence of valid records with non-negative
page counts, the number of pages in the generated document equals the sum
of the page counts across all records. -/
theorem page_total_eq_sum_of_counts (topics : List TopicData) (hne : topics ≠ [])
    (hv : ∀ t ∈ topics, ValidTopic t) (hnn : ∀ t ∈ topics, 0 ≤ countOf t) :
    ∃ doc, generate_notebook_pdf topics true = Except.ok doc ∧
      (doc.length : Int) = (topics.map countOf).sum :=
  ⟨expectedDoc topics, generate_valid topics hne hv, expectedDoc_length topics hnn⟩

/-- C4: generate processes records in input order, emitting for each
record a block of exactly pageCount pages labelled with that record, and
the serialised output is the whole accumulated document (the write happens
once, after all records are processed). -/
theorem generate_emits_in_order_then_writes (topics : List TopicData) (hne : topics ≠ [])
    (hv : ∀ t ∈ topics, ValidTopic t) (hnn : ∀ t ∈ topics, 0 ≤ countOf t) :
    generate_notebook_pdf topics true =
      Except.ok (topics.flatMap fun t =>
        List.replicate (countOf t).toNat ⟨nameOf t, pyLower (nameOf t)⟩) ∧
    ∀ t ∈ topics,
      ((List.replicate (countOf t).toNat (⟨nameOf t, pyLower (nameOf t)⟩ : PdfPage)).length : Int)
        = countOf t := by
  constructor
  · exact generate_valid topics hne hv
  · intro t ht
    simp [Int.toNat_of_nonneg (hnn t ht)]

/-- C5: calling generate with an empty record sequence fails with the
empty-input error for every write outcome, no page is constructed, and no
output document is produced. -/
theorem empty_records_raise_empty_input :
    (∀ writeOk : Bool, generate_notebook_pdf [] writeOk = Except.error GenError.emptyInput) ∧
    generatePages [] = Except.error GenError.emptyInput :=
  ⟨fun _ => rfl, rfl⟩

/-- C8: when the page-construction phase completes with accumulated state
s, a failing write surfaces WriteFailure (so the failure occurs only after
all pages are already constructed in memory), a successful write produces
exactly the full accumulated document, and no run ever produces a partial
document: every ok result is the complete serialisation of s. -/
theorem write_failure_only_after_full_document (topics : List TopicData) (s : PdfState)
    (h : generatePages topics = Except.ok s) :
    generate_notebook_pdf topics false = Except.error GenError.writeFailure ∧
    generate_notebook_pdf topics true = Except.ok (outputDoc s) ∧
    ∀ doc writeOk, generate_notebook_pdf topics writeOk = Except.ok doc → doc = outputDoc s := by
  refine ⟨by simp [generate_notebook_pdf, h], by simp [generate_notebook_pdf, h], ?_⟩
  intro doc writeOk hw
  simp [generate_notebook_pdf, h] at hw
  cases writeOk
  · simp at hw
  · simp at hw
    exact hw.symm

end Notebook

namespace Notebook

lemma checkRequiredKeys_missing :
    ∀ (i : Nat) (ts : List TopicData), (∃ t ∈ ts, t.topic = none ∨ t.pages = none) →
      ∃ key j, checkRequiredKeys i ts = some (GenError.missingField key j)
  | _, [], h => by simp at h
  | i, t :: rest, h => by
    by_cases h1 : t.topic.isNone = true
    · exact ⟨"Topic", i + 1, by simp [checkRequiredKeys, h1]⟩
    · by_cases h2 : t.pages.isNone = true
      · exact ⟨"Pages", i + 1, by simp [checkRequiredKeys, h1, h2]⟩
      · obtain ⟨x, hx, hor⟩ := h
        rcases List.mem_cons.mp hx with rfl | hx2
        · rcases hor with h3 | h3
          · rw [h3] at h1; simp at h1
          · rw [h3] at h2; simp at h2
        · obtain ⟨key, j, hk⟩ := checkRequiredKeys_missing (i + 1) rest ⟨x, hx2, hor⟩
          exact ⟨key, j, by simp [checkRequiredKeys, h1, h2, hk]⟩

/-- C6: if any record in the sequence lacks the Topic or the Pages key
(as happens for records constructed directly by a caller), generate fails
with the missing-field error, and already the page-construction phase
fails with that same error, so no page is emitted. -/
theorem missing_key_raises_before_any_page (topics : List TopicData) (writeOk : Bool)
    (h : ∃ t ∈ topics, t.topic = none ∨ t.pages = none) :
    ∃ key idx, generatePages topics = Except.error (GenError.missingField key idx) ∧
      generate_notebook_pdf topics writeOk = Except.error (GenError.missingField key idx) := by
  obtain ⟨key, j, hk⟩ := checkRequiredKeys_missing 0 topics h
  have hemp : topics.isEmpty = false := by
    obtain ⟨t, ht, _⟩ := h
    cases topics
    · simp at ht
    · rfl
  refine ⟨key, j, ?_, ?_⟩
  · simp [generatePages, hemp, hk]
  · simp [generate_notebook_pdf, generatePages, hemp, hk]

/-- C7: a record whose Pages value parses to 0 contributes zero pages:
the generated output with the record present equals the output with the
record removed, and (when no other record shares its name) the name of the
zero-count record appears on no page of the output. -/
theorem zero_count_record_invisible (xs ys : List TopicData) (name ps : String)
    (hv : ∀ t ∈ xs ++ ys, ValidTopic t) (hne : xs ++ ys ≠ [])
    (h0 : pyInt ps = some 0)
    (hfresh : ∀ t ∈ xs ++ ys, nameOf t ≠ name) :
    generate_notebook_pdf (xs ++ mkTopic name ps :: ys) true
      = generate_notebook_pdf (xs ++ ys) true ∧
    ∀ doc, generate_notebook_pdf (xs ++ mkTopic name ps :: ys) true = Except.ok doc →
      ∀ p ∈ doc, p.headerText ≠ name := by
  have hvr : ValidTopic (mkTopic name ps) := by
    constructor
    · simp [topicName, mkTopic]
    · simp [topicCount, mkTopic, h0]
  have hv2 : ∀ t ∈ xs ++ mkTopic name ps :: ys, ValidTopic t := by
    intro t ht
    rcases List.mem_append.mp ht with h | h
    · exact hv t (List.mem_append_left _ h)
    · rcases List.mem_cons.mp h with rfl | h2
      · exact hvr
      · exact hv t (List.mem_append_right _ h2)
  have hne2 : xs ++ mkTopic name ps :: ys ≠ [] := by simp
  have hdoc : expectedDoc (xs ++ mkTopic name ps :: ys) = expectedDoc (xs ++ ys) := by
    simp [expectedDoc, pageBlock, countOf, topicCount, mkTopic, h0]
  constructor
  · rw [generate_valid _ hne2 hv2, generate_valid _ hne hv, hdoc]
  · intro doc hd p hp
    rw [generate_valid _ hne2 hv2] at hd
    have hdd : doc = expectedDoc (xs ++ mkTopic name ps :: ys) := by
      injection hd with h
      exact h.symm
    rw [hdd, hdoc] at hp
    obtain ⟨t, ht, hpt⟩ := List.mem_flatMap.mp hp
    have hpe := List.eq_of_mem_replicate hpt
    simp [hpe, hfresh t ht]

/-- C9: a record whose Pages value parses to a negative integer raises
no error and contributes exactly zero pages, exactly as a record with a
page count of 0 does. -/
theorem negative_pages_acts_as_zero (xs ys : List TopicData) (name ps : String) (k : Int)
    (hv : ∀ t ∈ xs ++ ys, ValidTopic t) (hk : pyInt ps = some k) (hneg : k < 0) :
    generate_notebook_pdf (xs ++ mkTopic name ps :: ys) true
      = Except.ok (expectedDoc (xs ++ ys)) ∧
    generate_notebook_pdf (xs ++ mkTopic name ps :: ys) true
      = generate_notebook_pdf (xs ++ mkTopic name "0" :: ys) true := by
  have hkz : k.toNat = 0 := Int.toNat_eq_zero.mpr hneg.le
  have hvr : ValidTopic (mkTopic name ps) := by
    constructor
    · simp [topicName, mkTopic]
    · simp [topicCount, mkTopic, hk]
  have h00 : pyInt "0" = some 0 := by decide
  have hvz : ValidTopic (mkTopic name "0") := by
    constructor
    · simp [topicName, mkTopic]
    · simp [topicCount, mkTopic, h00]
  have hv2 : ∀ t ∈ xs ++ mkTopic name ps :: ys, ValidTopic t := by
    intro t ht
    rcases List.mem_append.mp ht with h | h
    · exact hv t (List.mem_append_left _ h)
    · rcases List.mem_cons.mp h with rfl | h2
      · exact hvr
      · exact hv t (List.mem_append_right _ h2)
  have hv3 : ∀ t ∈ xs ++ mkTopic name "0" :: ys, ValidTopic t := by
    intro t ht
    rcases List.mem_append.mp ht with h | h
    · exact hv t (List.mem_append_left _ h)
    · rcases List.mem_cons.mp h with rfl | h2
      · exact hvz
      · exact hv t (List.mem_append_right _ h2)
  have hne2 : xs ++ mkTopic name ps :: ys ≠ [] := by simp
  have hne3 : xs ++ mkTopic name "0" :: ys ≠ [] := by simp
  have hdoc : expectedDoc (xs ++ mkTopic name ps :: ys) = expectedDoc (xs ++ ys) := by
    simp [expectedDoc, pageBlock, countOf, topicCount, mkTopic, hk, hkz]
  have hdoc0 : expectedDoc (xs ++ mkTopic name "0" :: ys) = expectedDoc (xs ++ ys) := by
    simp [expectedDoc, pageBlock, countOf, topicCount, mkTopic, h00]
  constructor
  · rw [generate_valid _ hne2 hv2, hdoc]
  · rw [generate_valid _ hne2 hv2, generate_valid _ hne3 hv3, hdoc, hdoc0]

/-- C3 counterexample: loading a resource with the non-numeric Pages
value abc succeeds and returns the row unvalidated, refuting the claim
that the loader fails with MalformedRecord at load time. -/
theorem loader_accepts_nonnumeric_pages :
    load_topics_from_csv (some "Topic,Pages\nMath,abc") = Except.ok [mkTopic "Math" "abc"] := rfl

lemma checkRequiredKeys_none_of_present :
    ∀ (i : Nat) (ts : List TopicData),
      (∀ t ∈ ts, t.topic.isNone = false ∧ t.pages.isNone = false) →
      checkRequiredKeys i ts = none
  | _, [], _ => rfl
  | i, t :: rest, h => by
    obtain ⟨htp, hpg⟩ := h t (List.mem_cons_self t rest)
    simp [checkRequiredKeys, htp, hpg,
      checkRequiredKeys_none_of_present (i + 1) rest (fun x hx => h x (List.mem_cons_of_mem _ hx))]

lemma runTopics_append (ys : List TopicData) :
    ∀ (xs : List TopicData) (s s2 : PdfState), runTopics s xs = Except.ok s2 →
      runTopics s (xs ++ ys) = runTopics s2 ys
  | [], s, s2, h => by
    injection h with h1
    rw [List.nil_append, h1]
  | t :: xs, s, s2, h => by
    simp only [List.cons_append, runTopics] at h ⊢
    cases hr : recordPages s t with
    | error e =>
      rw [hr] at h
      exact Except.noConfusion h
    | ok s1 =>
      simp only [hr] at h ⊢
      exact runTopics_append ys xs s1 s2 h

/-- C3 amended: the loader performs no row validation: every readable
resource loads successfully whatever its rows contain (a missing field or
a non-numeric Pages value included), and the only load-time failure is
the resource-not-found error; for any record whose Pages value int()
rejects, placed after any prefix of valid records, generate instead fails
with ValueError at that record, at a point where the pages of all earlier
records are already constructed in memory, and for every write outcome no
output document is produced. -/
theorem malformed_rows_fail_in_generate_not_load
    (content : String) (xs rest : List TopicData) (name ps : String)
    (hxs : ∀ t ∈ xs, ValidTopic t) (hps : pyInt ps = none)
    (hrest : ∀ t ∈ rest, t.topic.isNone = false ∧ t.pages.isNone = false) :
    (∀ file e, load_topics_from_csv file = Except.error e → e = LoadError.resourceNotFound) ∧
    (∃ rows, load_topics_from_csv (some content) = Except.ok rows) ∧
    (∃ s, runTopics initPdf xs = Except.ok s ∧ outputDoc s = expectedDoc xs ∧
      recordPages s (mkTopic name ps) = Except.error (GenError.valueError ps)) ∧
    (∀ writeOk, generate_notebook_pdf (xs ++ mkTopic name ps :: rest) writeOk
      = Except.error (GenError.valueError ps)) := by
  obtain ⟨s0, hrun, hout⟩ := runTopics_valid xs initPdf hxs
  have hbad : recordPages s0 (mkTopic name ps) = Except.error (GenError.valueError ps) := by
    simp [recordPages, mkTopic, hps]
  refine ⟨?_, ?_, ⟨s0, hrun, ?_, hbad⟩, ?_⟩
  · intro file e h
    cases file with
    | none =>
      injection h with h1
      exact h1.symm
    | some c =>
      simp only [load_topics_from_csv] at h
      split at h
      · exact Except.noConfusion h
      · exact Except.noConfusion h
  · simp only [load_topics_from_csv]
    split
    · exact ⟨_, rfl⟩
    · exact ⟨_, rfl⟩
  · simpa [initPdf, outputDoc, closeOpenPage] using hout
  · intro writeOk
    have hkeys : checkRequiredKeys 0 (xs ++ mkTopic name ps :: rest) = none := by
      apply checkRequiredKeys_none_of_present
      intro t ht
      rcases List.mem_append.mp ht with h | h
      · exact valid_keys_present t (hxs t h)
      · rcases List.mem_cons.mp h with rfl | h2
        · exact ⟨rfl, rfl⟩
        · exact hrest t h2
    have hemp : (xs ++ mkTopic name ps :: rest).isEmpty = false := by
      cases xs <;> rfl
    have hloop : runTopics initPdf (xs ++ mkTopic name ps :: rest)
        = Except.error (GenError.valueError ps) := by
      rw [runTopics_append (mkTopic name ps :: rest) xs initPdf s0 hrun]
      simp only [runTopics, hbad]
    simp [generate_notebook_pdf, generatePages, hemp, hkeys, hloop]

end Notebook

namespace Notebook

/-- `page_height` constant of `_add_notebook_lines` (A4 height in mm). -/
def page_height : ℚ := 297

/-- `margin_bottom` constant of `_add_notebook_lines` (room for the footer). -/
def margin_bottom : ℚ := 20

/-- `line_spacing` constant of `_add_notebook_lines` (7 mm rule pitch). -/
def line_spacing : ℚ := 7

/-- The `while` loop of `_add_notebook_lines`: collects the vertical
positions at which ruling lines are drawn, starting from `y`, advancing by
`line_spacing` while below `page_height - margin_bottom`.  Exact rational
arithmetic stands in for Python floats. -/
def rulingLines (y : ℚ) : List ℚ :=
  if _h : y < page_height - margin_bottom then y :: rulingLines (y + line_spacing) else []
termination_by (Int.ceil (page_height - margin_bottom - y)).toNat
decreasing_by
  have hpos : (0 : ℚ) < page_height - margin_bottom - y := by linarith
  have h1 : page_height - margin_bottom - (y + line_spacing)
      = (page_height - margin_bottom - y) - ((7 : Int) : ℚ) := by
    push_cast
    simp [line_spacing]
    ring
  rw [h1, Int.ceil_sub_int]
  have h2 : 0 < Int.ceil (page_height - margin_bottom - y) := Int.ceil_pos.mpr hpos
  omega

/-- `_add_notebook_lines`: the first rule is drawn one `line_spacing`
below the vertical position reached after the header (`margin_top`). -/
def add_notebook_lines (margin_top : ℚ) : List ℚ := rulingLines (margin_top + line_spacing)

lemma rulingLines_stop (y : ℚ) (hnot : ¬ y < page_height - margin_bottom) :
    ∃ n : Nat,
      rulingLines y = (List.range n).map (fun i : Nat => y + line_spacing * (i : ℚ)) ∧
      (∀ i : Nat, i < n → y + line_spacing * i < page_height - margin_bottom) ∧
      ¬ (y + line_spacing * n < page_height - margin_bottom) := by
  refine ⟨0, ?_, ?_, ?_⟩
  · rw [rulingLines, dif_neg hnot]
    simp
  · intro i hi
    exact absurd hi (Nat.not_lt_zero i)
  · push_cast
    simpa using hnot

lemma rulingLines_spec :
    ∀ (m : Nat) (y : ℚ), (Int.ceil (page_height - margin_bottom - y)).toNat ≤ m →
      ∃ n : Nat,
        rulingLines y = (List.range n).map (fun i : Nat => y + line_spacing * (i : ℚ)) ∧
        (∀ i : Nat, i < n → y + line_spacing * i < page_height - margin_bottom) ∧
        ¬ (y + line_spacing * n < page_height - margin_bottom)
  | 0, y, hm => by
    have hnot : ¬ y < page_height - margin_bottom := by
      intro hlt
      have hpos : 0 < Int.ceil (page_height - margin_bottom - y) :=
        Int.ceil_pos.mpr (by linarith)
      omega
    exact rulingLines_stop y hnot
  | m + 1, y, hm => by
    by_cases hlt : y < page_height - margin_bottom
    · have hstep : (Int.ceil (page_height - margin_bottom - (y + line_spacing))).toNat ≤ m := by
        have h1 : page_height - margin_bottom - (y + line_spacing)
            = (page_height - margin_bottom - y) - ((7 : Int) : ℚ) := by
          simp only [line_spacing]
          push_cast
          ring
        rw [h1, Int.ceil_sub_int]
        have h2 : 0 < Int.ceil (page_height - margin_bottom - y) :=
          Int.ceil_pos.mpr (by linarith)
        omega
      obtain ⟨n, hmap, hbelow, hstopn⟩ := rulingLines_spec m (y + line_spacing) hstep
      refine ⟨n + 1, ?_, ?_, ?_⟩
      · rw [rulingLines, dif_pos hlt, hmap, List.range_succ_eq_map]
        simp only [List.map_cons, List.map_map]
        refine congrArg₂ List.cons ?_ ?_
        · push_cast
          ring
        · refine List.map_congr_left ?_
          intro i _
          simp only [Function.comp]
          push_cast
          ring
      · intro i hi
        cases i with
        | zero =>
          push_cast
          simpa using hlt
        | succ j =>
          have hj := hbelow j (Nat.lt_of_succ_lt_succ hi)
          push_cast at hj ⊢
          linarith
      · intro hcon
        apply hstopn
        push_cast at hcon ⊢
        linarith
    · exact rulingLines_stop y hlt

/-- C10: the ruling-line loop of add_notebook_lines always terminates:
for every starting vertical position there is a finite number n of drawn
lines, the drawn positions advance by exactly the fixed positive spacing
of 7 mm per iteration, every drawn position is below the fixed page-height
bound, and the first position at or past the bound stops the loop. -/
theorem ruling_loop_terminates (margin_top : ℚ) :
    ∃ n : Nat,
      add_notebook_lines margin_top
        = (List.range n).map (fun i : Nat => margin_top + line_spacing + line_spacing * (i : ℚ)) ∧
      (∀ i : Nat, i < n →
        margin_top + line_spacing + line_spacing * i < page_height - margin_bottom) ∧
      ¬ (margin_top + line_spacing + line_spacing * n < page_height - margin_bottom) := by
  obtain ⟨n, h1, h2, h3⟩ :=
    rulingLines_spec (Int.ceil (page_height - margin_bottom - (margin_top + line_spacing))).toNat
      (margin_top + line_spacing) le_rfl
  exact ⟨n, h1, h2, h3⟩

end Notebook

namespace Notebook

theorem page_label_snapshot_consistent_check :
    ([mkTopic "Math" "2", mkTopic "Art" "1"] ≠ ([] : List TopicData)) ∧
    (∀ t ∈ [mkTopic "Math" "2", mkTopic "Art" "1"], ValidTopic t) ∧
    (∃ doc, generate_notebook_pdf [mkTopic "Math" "2", mkTopic "Art" "1"] true
        = Except.ok doc ∧
      doc = [mkTopic "Math" "2", mkTopic "Art" "1"].flatMap pageBlock ∧
      (∀ t ∈ [mkTopic "Math" "2", mkTopic "Art" "1"], ∀ p ∈ pageBlock t,
        p.headerText = nameOf t ∧ p.footerText = pyLower (nameOf t)) ∧
      (∀ p ∈ doc, p.footerText = pyLower p.headerText)) :=
  ⟨by decide, by decide,
   page_label_snapshot_consistent [mkTopic "Math" "2", mkTopic "Art" "1"] (by decide) (by decide)⟩

theorem page_total_eq_sum_of_counts_check :
    ([mkTopic "Math" "2", mkTopic "Art" "1"] ≠ ([] : List TopicData)) ∧
    (∀ t ∈ [mkTopic "Math" "2", mkTopic "Art" "1"], ValidTopic t) ∧
    (∀ t ∈ [mkTopic "Math" "2", mkTopic "Art" "1"], 0 ≤ countOf t) ∧
    (∃ doc, generate_notebook_pdf [mkTopic "Math" "2", mkTopic "Art" "1"] true
        = Except.ok doc ∧
      (doc.length : Int) = ([mkTopic "Math" "2", mkTopic "Art" "1"].map countOf).sum) :=
  ⟨by decide, by decide, by decide,
   page_total_eq_sum_of_counts [mkTopic "Math" "2", mkTopic "Art" "1"]
     (by decide) (by decide) (by decide)⟩

theorem generate_emits_in_order_then_writes_check :
    ([mkTopic "Math" "2", mkTopic "Art" "1"] ≠ ([] : List TopicData)) ∧
    (∀ t ∈ [mkTopic "Math" "2", mkTopic "Art" "1"], ValidTopic t) ∧
    (∀ t ∈ [mkTopic "Math" "2", mkTopic "Art" "1"], 0 ≤ countOf t) ∧
    (generate_notebook_pdf [mkTopic "Math" "2", mkTopic "Art" "1"] true =
      Except.ok ([mkTopic "Math" "2", mkTopic "Art" "1"].flatMap fun t =>
        List.replicate (countOf t).toNat ⟨nameOf t, pyLower (nameOf t)⟩) ∧
    ∀ t ∈ [mkTopic "Math" "2", mkTopic "Art" "1"],
      ((List.replicate (countOf t).toNat (⟨nameOf t, pyLower (nameOf t)⟩ : PdfPage)).length : Int)
        = countOf t) :=
  ⟨by decide, by decide, by decide,
   generate_emits_in_order_then_writes [mkTopic "Math" "2", mkTopic "Art" "1"]
     (by decide) (by decide) (by decide)⟩

theorem empty_records_raise_empty_input_check :
    generate_notebook_pdf [] true = Except.error GenError.emptyInput :=
  empty_records_raise_empty_input.1 true

theorem write_failure_only_after_full_document_check :
    generatePages [mkTopic "A" "1"] = Except.ok ⟨"A", "A", [], some "A"⟩ ∧
    (generate_notebook_pdf [mkTopic "A" "1"] false = Except.error GenError.writeFailure ∧
     generate_notebook_pdf [mkTopic "A" "1"] true
       = Except.ok (outputDoc ⟨"A", "A", [], some "A"⟩) ∧
     ∀ doc writeOk, generate_notebook_pdf [mkTopic "A" "1"] writeOk = Except.ok doc →
       doc = outputDoc ⟨"A", "A", [], some "A"⟩) :=
  ⟨rfl, write_failure_only_after_full_document [mkTopic "A" "1"] ⟨"A", "A", [], some "A"⟩ rfl⟩

theorem missing_key_raises_before_any_page_check :
    (∃ t ∈ [(⟨none, some (Cell.str "1")⟩ : TopicData)], t.topic = none ∨ t.pages = none) ∧
    (∃ key idx, generatePages [(⟨none, some (Cell.str "1")⟩ : TopicData)]
        = Except.error (GenError.missingField key idx) ∧
      generate_notebook_pdf [(⟨none, some (Cell.str "1")⟩ : TopicData)] true
        = Except.error (GenError.missingField key idx)) :=
  ⟨by decide,
   missing_key_raises_before_any_page [(⟨none, some (Cell.str "1")⟩ : TopicData)] true (by decide)⟩

theorem zero_count_record_invisible_check :
    (∀ t ∈ [mkTopic "Math" "2"] ++ [mkTopic "Art" "1"], ValidTopic t) ∧
    ([mkTopic "Math" "2"] ++ [mkTopic "Art" "1"] ≠ []) ∧
    pyInt "0" = some 0 ∧
    (∀ t ∈ [mkTopic "Math" "2"] ++ [mkTopic "Art" "1"], nameOf t ≠ "Break") ∧
    (generate_notebook_pdf ([mkTopic "Math" "2"] ++ mkTopic "Break" "0" :: [mkTopic "Art" "1"]) true
        = generate_notebook_pdf ([mkTopic "Math" "2"] ++ [mkTopic "Art" "1"]) true ∧
     ∀ doc,
       generate_notebook_pdf ([mkTopic "Math" "2"] ++ mkTopic "Break" "0" :: [mkTopic "Art" "1"]) true
         = Except.ok doc →
       ∀ p ∈ doc, p.headerText ≠ "Break") :=
  ⟨by decide, by decide, by decide, by decide,
   zero_count_record_invisible [mkTopic "Math" "2"] [mkTopic "Art" "1"] "Break" "0"
     (by decide) (by decide) (by decide) (by decide)⟩

theorem negative_pages_acts_as_zero_check :
    (∀ t ∈ [mkTopic "Math" "1"] ++ ([] : List TopicData), ValidTopic t) ∧
    pyInt "-3" = some (-3) ∧
    ((-3 : Int) < 0) ∧
    (generate_notebook_pdf ([mkTopic "Math" "1"] ++ mkTopic "Neg" "-3" :: ([] : List TopicData)) true
        = Except.ok (expectedDoc ([mkTopic "Math" "1"] ++ ([] : List TopicData))) ∧
     generate_notebook_pdf ([mkTopic "Math" "1"] ++ mkTopic "Neg" "-3" :: ([] : List TopicData)) true
        = generate_notebook_pdf ([mkTopic "Math" "1"] ++ mkTopic "Neg" "0" :: ([] : List TopicData)) true) :=
  ⟨by decide, by decide, by decide,
   negative_pages_acts_as_zero [mkTopic "Math" "1"] ([] : List TopicData) "Neg" "-3" (-3)
     (by decide) (by decide) (by decide)⟩

theorem malformed_rows_fail_in_generate_not_load_check :
    (∀ t ∈ [mkTopic "Math" "2"], ValidTopic t) ∧
    pyInt "abc" = none ∧
    (∀ t ∈ [mkTopic "Art" "1"], t.topic.isNone = false ∧ t.pages.isNone = false) ∧
    ((∀ file e, load_topics_from_csv file = Except.error e → e = LoadError.resourceNotFound) ∧
     (∃ rows, load_topics_from_csv (some "Topic,Pages\nMath") = Except.ok rows) ∧
     (∃ s, runTopics initPdf [mkTopic "Math" "2"] = Except.ok s ∧
        outputDoc s = expectedDoc [mkTopic "Math" "2"] ∧
        recordPages s (mkTopic "Bad" "abc") = Except.error (GenError.valueError "abc")) ∧
     (∀ writeOk,
        generate_notebook_pdf ([mkTopic "Math" "2"] ++ mkTopic "Bad" "abc" :: [mkTopic "Art" "1"])
            writeOk
          = Except.error (GenError.valueError "abc"))) :=
  ⟨by decide, by decide, by decide,
   malformed_rows_fail_in_generate_not_load "Topic,Pages\nMath" [mkTopic "Math" "2"]
     [mkTopic "Art" "1"] "Bad" "abc" (by decide) (by decide) (by decide)⟩

theorem ruling_loop_terminates_check :
    ∃ n : Nat,
      add_notebook_lines 30
        = (List.range n).map (fun i : Nat => 30 + line_spacing + line_spacing * (i : ℚ)) ∧
      (∀ i : Nat, i < n →
        30 + line_spacing + line_spacing * (i : ℚ) < page_height - margin_bottom) ∧
      ¬ ((30 : ℚ) + line_spacing + line_spacing * (n : ℚ) < page_height - margin_bottom) :=
  ruling_loop_terminates 30

end Notebook
